import Mathlib

/-!
Verification of the monitoring engine of the `instaf` repository against its
natural-language specification.

The JavaScript source (`src/services/monitor.js`, the Instagram service file,
`src/models/models.js`) is shallowly embedded below: each Lean definition
mirrors one source function, with JavaScript `null`/`undefined` rendered as
`Option`, millisecond timestamps as `Int` (JS `Date.now()` numbers), and the
MongoDB collections as explicit lists threaded through the functions.
-/

namespace Instaf

/-- A Telegram chat id (the subscriber target); `models.js` stores it as a string. -/
abbrev ChatId := String

/-- A canonical account username (the identity key). -/
abbrev Username := String

/-! ## Snapshot data model

`FollowerHistorySchema` in `src/models/models.js` (lines 11-27): one persisted
observation of a profile.  Fields not compared by the change detector
(`scrapedUsername`, `userDescription`, `userProfilePic`, raw strings, the raw
API payload) are omitted; they never influence any claim below.  JS fields may
hold `null` (e.g. `_parseApiResponse` sets `isPrivate: null` on API failure, and
old records may lack counters — `_detectChanges` defends with `|| 0`), so every
compared field is an `Option`. -/
structure Snapshot where
  username : Username
  userFullname : Option String
  userProfilePicHash : Option String
  isPrivate : Option Bool
  isVerified : Option Bool
  followersCount : Option Int
  followingCount : Option Int
  postsCount : Option Int
deriving Repr, DecidableEq

/-- JS `x || 0` on a possibly-missing counter (`monitor.js` lines 433-435). -/
def orZero : Option Int → Int
  | some n => n
  | none => 0

/-- The structured diff produced by `_detectChanges` (`monitor.js` lines 428-449).
The source also stores `current`/`previous` in the object; those are just the
inputs and are not duplicated here. -/
structure Changes where
  hasChanged : Bool
  followerDiff : Int
  followingDiff : Int
  postsDiff : Int
  verifiedChanged : Bool
  privateChanged : Bool
  profilePicChanged : Bool
  nameChanged : Bool
deriving Repr, DecidableEq

/-- `_detectChanges(current, previous)` — `monitor.js` lines 428-449.
`if (!previous) return { hasChanged: true }` yields a diff object whose other
fields are absent (JS `undefined`); we render them as `0`/`false`.  Otherwise
each signal is computed exactly as in the source: numeric difference with
`|| 0` defaulting for the three counters, strict-inequality (`!==`) for the
two flags, the full name and the avatar content hash; `hasChanged` is the
disjunction of all signals (lines 444-446). -/
def detectChanges (current : Snapshot) (previous : Option Snapshot) : Changes :=
  match previous with
  | none =>
      { hasChanged := true, followerDiff := 0, followingDiff := 0, postsDiff := 0,
        verifiedChanged := false, privateChanged := false,
        profilePicChanged := false, nameChanged := false }
  | some prev =>
      let followerDiff := orZero current.followersCount - orZero prev.followersCount
      let followingDiff := orZero current.followingCount - orZero prev.followingCount
      let postsDiff := orZero current.postsCount - orZero prev.postsCount
      let verifiedChanged := current.isVerified ≠ prev.isVerified
      let privateChanged := current.isPrivate ≠ prev.isPrivate
      let profilePicChanged := current.userProfilePicHash ≠ prev.userProfilePicHash
      let nameChanged := current.userFullname ≠ prev.userFullname
      { hasChanged := followerDiff ≠ 0 || followingDiff ≠ 0 || postsDiff ≠ 0 ||
        verifiedChanged || privateChanged || profilePicChanged || nameChanged,
        followerDiff, followingDiff, postsDiff,
        verifiedChanged, privateChanged, profilePicChanged, nameChanged }

/-! ## New-identity suppression -/

/-- `_shouldSuppressNotification(username, options)` — `monitor.js` lines 451-462.
State inputs are made explicit: `force` is `options.forceInitialNotification`,
`addedAt` is `this._recentlyAddedAccounts[username]` (absent entry = `none`),
`now` is `Date.now()`.  The source value of the grace window is 90000 ms.
(The source also deletes the stale map entry on the final branch; that mutation
does not affect the returned verdict and the claims only concern the verdict.) -/
def shouldSuppressNotification (force : Bool) (addedAt : Option Int) (now : Int) : Bool :=
  if force then false
  else match addedAt with
    | none => false
    | some t => if now - t < 90000 then true else false

/-- What `_processProfileData` does after computing the diff. -/
inductive NotifyKind where
  | none
  | changes
  | newAccount
deriving Repr, DecidableEq

/-- `_processProfileData(username, currentData, options)` — `monitor.js`
lines 326-338: compute the diff against the latest stored snapshot; when
`hasChanged`, persist the snapshot and either send a change notification
(previous snapshot exists) or, unless suppressed, the "initial data"
notification.  Returns (snapshot persisted?, which notification is sent). -/
def processProfileData (current : Snapshot) (previous : Option Snapshot)
    (force : Bool) (addedAt : Option Int) (now : Int) : Bool × NotifyKind :=
  let changes := detectChanges current previous
  if changes.hasChanged then
    match previous with
    | some _ => (true, NotifyKind.changes)
    | none =>
        if shouldSuppressNotification force addedAt now then (true, NotifyKind.none)
        else (true, NotifyKind.newAccount)
  else (false, NotifyKind.none)

/-! ## Avatar hashing (Instagram service) -/

/-- `_getImageHash(url)` in the Instagram service file (lines 120-137).
The network interaction is made explicit: `fetchResult` is `some bytes` when
the HTTP GET returned status 200 with a body, `none` on any error or timeout
(the source catches and returns `null`) or a non-200/empty response; `md5` is
the digest function.  A missing url also yields `null`. -/
def getImageHash (url : Option String) (fetchResult : Option (List Nat))
    (md5 : List Nat → String) : Option String :=
  match url with
  | none => none
  | some _ =>
      match fetchResult with
      | some data => some (md5 data)
      | none => none

/-- The hash-assignment step of `fetchProfileData` (Instagram service file,
lines 15-30): when the API response has `status === true` and a profile-pic
url is present, the snapshot's `userProfilePicHash` is set to the result of
`_getImageHash`; otherwise it stays `null` (as set by `_parseApiResponse`). -/
def fetchProfileDataHash (apiOk : Bool) (userProfilePic : Option String)
    (fetchResult : Option (List Nat)) (md5 : List Nat → String) : Option String :=
  if apiOk then
    match userProfilePic with
    | some url => getImageHash (some url) fetchResult md5
    | none => none
  else none

/-! ## Dedup ledger and the notify loop

`_notifyStory` (`monitor.js` lines 632-682) and `_notifyPost` (lines 276-324)
share one shape: resolve the deduplicated subscriber chat ids, then for each
chat id, skip it when it is already in the record's `sentTo` snapshot; attempt
delivery (rich media, falling back to a plain message); on confirmed delivery
`$addToSet` the chat id into the record's persisted `sentTo`.  The persisted
`sentTo` array under `$addToSet` is a set: an element is appended only when
absent. -/

/-- MongoDB `$addToSet` on the persisted `sentTo` array: append `a` when
absent; the `Bool` reports whether it was newly added. -/
def addToSet (l : List ChatId) (a : ChatId) : List ChatId × Bool :=
  if a ∈ l then (l, false) else (l ++ [a], true)

/-- One run of the per-chat loop of `_notifyStory`/`_notifyPost`.
`snapshot` is the record's `sentTo` as loaded (`storyRecord.sentTo` /
`postRecord.sentTo`, read by the `includes` skip-check), `db` the persisted
`sentTo` that `$addToSet` updates (equal to `snapshot` at load time),
`deliverOk t` whether delivery to `t` is confirmed (`sent === true`: the
primary send or its text fallback succeeded; false when both fail or the
media type is neither photo nor video).  Returns the persisted `sentTo` after
the run and the list of targets `$addToSet` newly added during the run. -/
def notifyRun (snapshot : List ChatId) (deliverOk : ChatId → Bool) :
    List ChatId → List ChatId → List ChatId × List ChatId
  | db, [] => (db, [])
  | db, t :: ts =>
      if t ∈ snapshot then notifyRun snapshot deliverOk db ts
      else if deliverOk t then
        let step := addToSet db t
        let rest := notifyRun snapshot deliverOk step.1 ts
        (rest.1, (if step.2 then [t] else []) ++ rest.2)
      else notifyRun snapshot deliverOk db ts

/-- Running the notify path twice over the same persisted record: the first
run loads the record (snapshot = persisted `sentTo` = `db0`), the second run
re-loads it after the first run's updates.  Returns the final persisted
`sentTo` and the newly-added lists of the two runs. -/
def notifyTwice (db0 : List ChatId) (targets : List ChatId)
    (deliverOk : ChatId → Bool) : List ChatId × List ChatId × List ChatId :=
  let run1 := notifyRun db0 deliverOk db0 targets
  let run2 := notifyRun run1.1 deliverOk run1.1 targets
  (run2.1, run1.2, run2.2)

/-! ## Ephemeral media (story) processing -/

/-- One `StoryHistory` record — `src/models/models.js` lines 31-38.
`processedAt` is the field the dedup decision reads; times are JS epoch
milliseconds. -/
structure StoryRec where
  username : Username
  mediaUrl : String
  mediaType : String
  processedAt : Int
  sentTo : List ChatId
deriving Repr, DecidableEq

/-- `StoryHistory.findOne({username}).sort({processedAt: -1})` — the record
with the greatest `processedAt` among those of `username` (`none` when there
is none).  The store list is ordered oldest-first, so the right fold keeps
the later of equal timestamps like Mongo's stable sort would; all claims use
strictly increasing times, where any tie-break agrees. -/
def latestStory (store : List StoryRec) (username : Username) : Option StoryRec :=
  store.foldl (fun acc r =>
    if r.username = username then
      match acc with
      | none => some r
      | some best => if best.processedAt ≤ r.processedAt then some r else some best
    else acc) none

/-- The should-process decision of `_processStoryResult` (`monitor.js`
lines 600-609): `isNewStory = !lastProcessedStory ||
(lastProcessedStory.processedAt < fiveMinutesAgo)` with
`fiveMinutesAgo = Date.now() - 5*60*1000`.  Note it never reads the observed
media reference. -/
def isNewStory (store : List StoryRec) (username : Username) (now : Int) : Bool :=
  match latestStory store username with
  | none => true
  | some last => last.processedAt < now - 5 * 60 * 1000

/-- `_processStoryResult(username, storyResult)` — `monitor.js` lines 598-630,
for a successful story fetch (`status === 'ok'` with a media url).  When the
decision says new, a fresh record with `processedAt = now` and empty `sentTo`
is appended and `_notifyStory` is invoked for it; otherwise nothing happens.
Returns the store after the call and whether the notify path was invoked. -/
def processStoryResult (store : List StoryRec) (username : Username)
    (mediaUrl mediaType : String) (now : Int) : List StoryRec × Bool :=
  if isNewStory store username now then
    (store ++ [{ username, mediaUrl, mediaType, processedAt := now, sentTo := [] }], true)
  else (store, false)

/-- Records of `username` carrying media reference `mediaUrl` — the claim's
"(identity, media reference)" pairs present in the store. -/
def storyRecordsFor (store : List StoryRec) (username : Username)
    (mediaUrl : String) : List StoryRec :=
  store.filter (fun r => r.username = username && r.mediaUrl = mediaUrl)

/-! ## Subscription store, add/remove -/

/-- One `MonitoredUser` subscription (`models.js` lines 3-9): the unique
(username, chatId) pair. `addedByUserId` plays no role in any claim. -/
structure Subscription where
  username : Username
  chatId : ChatId
deriving Repr, DecidableEq

/-- The persistence state the add/remove flows touch: the subscription
collection and the three per-identity history collections.  History records
are reduced to their owning username — the cascade deletes whole records by
username and no claim reads other fields of follower/post history. -/
structure Store where
  monitored : List Subscription
  followerHist : List Username
  storyHist : List Username
  postHist : List Username
deriving Repr, DecidableEq

/-- `MonitoredUser.deleteOne({username, chatId})`: delete the first matching
document (the unique index on (username, chatId) guarantees at most one
exists). -/
def deleteOneSub (l : List Subscription) (username : Username) (chatId : ChatId) :
    List Subscription :=
  match l with
  | [] => []
  | s :: rest =>
      if s.username = username ∧ s.chatId = chatId then rest
      else s :: deleteOneSub rest username chatId

/-- `MonitoredUser.countDocuments({username})`. -/
def countSubs (l : List Subscription) (username : Username) : Nat :=
  (l.filter (fun s => s.username = username)).length

/-- `removeAccount(username, chatId)` — `monitor.js` lines 72-93: delete the
subscription; if something was deleted and no subscriber of `username`
remains, `deleteMany({username})` on all three history collections.
Messages sent to the chat don't alter the store and are omitted. -/
def removeAccount (st : Store) (username : Username) (chatId : ChatId) : Store :=
  let monitored := deleteOneSub st.monitored username chatId
  if monitored.length < st.monitored.length then
    if countSubs monitored username = 0 then
      { monitored,
        followerHist := st.followerHist.filter (fun u => u ≠ username),
        storyHist := st.storyHist.filter (fun u => u ≠ username),
        postHist := st.postHist.filter (fun u => u ≠ username) }
    else { st with monitored }
  else st

/-- Outcome of the `addAccount` guard chain: which message is sent back to the
requesting chat, in source order (`monitor.js` lines 31-50). -/
inductive AddOutcome where
  | warnEmpty
  | warnInvalidFormat
  | infoAlreadyMonitored
  | added
deriving Repr, DecidableEq

/-- One character of `[a-zA-Z0-9._]`. -/
def isUsernameChar (c : Char) : Bool :=
  c.isAlpha || c.isDigit || c = '.' || c = '_'

/-- The `/^[a-zA-Z0-9._]{1,30}$/` test of `monitor.js` line 37. -/
def isValidUsername (s : String) : Bool :=
  1 ≤ s.length && s.length ≤ 30 && s.toList.all isUsernameChar

/-- `addAccount(username, chatId, userId)` — `monitor.js` lines 31-70,
restricted to its effect on the subscription store.  Guard chain: falsy
(empty) username → warning; regex failure → warning; existing
(username, chatId) subscription → info message; otherwise the subscription
is saved and the initial checks run, performing external fetches.  Returns
(store after the call, outcome message, whether any external fetch was
performed). -/
def addAccount (st : Store) (username : Username) (chatId : ChatId) :
    Store × AddOutcome × Bool :=
  if username = "" then (st, AddOutcome.warnEmpty, false)
  else if ¬ isValidUsername username then (st, AddOutcome.warnInvalidFormat, false)
  else if (⟨username, chatId⟩ : Subscription) ∈ st.monitored then
    (st, AddOutcome.infoAlreadyMonitored, false)
  else
    ({ st with monitored := st.monitored ++ [⟨username, chatId⟩] }, AddOutcome.added, true)

/-! ## Scheduler: start, interval ticks -/

/-- The scheduler flags and timer handles of `MonitorService` (constructor,
`monitor.js` lines 9-14), plus a count of profile-check cycles currently in
flight — not a source variable (the source keeps no such state, which is the
point of the re-entrancy claim) but the observable the claim is about. -/
structure SchedState where
  isRunning : Bool
  isInitializing : Bool
  intervalInstalled : Bool
  storyIntervalInstalled : Bool
  postIntervalInstalled : Bool
  activeCycles : Nat
deriving Repr, DecidableEq

/-- The profile-loop interval callback — `monitor.js` lines 482-490 plus the
entry guards of `checkAllAccounts` (lines 523-532): when `isRunning` is
false the interval clears itself; otherwise `checkAllAccounts` runs, which
returns early when `isInitializing` or not `isRunning`, and otherwise starts
a check cycle.  Nothing in either function consults whether a previous cycle
is still in flight. -/
def intervalTick (s : SchedState) : SchedState :=
  if ¬ s.isRunning then { s with intervalInstalled := false }
  else if s.isInitializing then s
  else if ¬ s.isRunning then s
  else { s with activeCycles := s.activeCycles + 1 }

/-- `_getUniqueMonitoredAccounts()` — `monitor.js` lines 566-573:
`MonitoredUser.distinct('username')` inside try/catch; any store error is
caught, logged, and an empty list returned.  `db = none` models the identity
store being unreachable. -/
def getUniqueMonitoredAccounts (db : Option (List Username)) : List Username :=
  match db with
  | some accounts => accounts
  | none => []

/-- `start()` — `monitor.js` lines 464-501.  When already running it returns
at once.  Otherwise the body runs under try/catch (a thrown error would reset
`isRunning` and propagate): the identity-enumeration probe
(`_getUniqueMonitoredAccounts`, which cannot throw — it swallows store
errors), clearing `isInitializing`, setting `isRunning`, the first
`checkAllAccounts` pass (wraps its work in try/catch, lines 534-563), and
installation of the three interval timers (`_startStoryMonitor` and
`_startPostMonitor` run each username's check inside its own try/catch,
lines 582-590 and 689-695, so neither throws on store failure either).
With the identity store unreachable every step still completes, so the
`.error` branch is unreachable for that failure. -/
def start (db : Option (List Username)) (s : SchedState) : Except String SchedState :=
  if s.isRunning then Except.ok s
  else
    let _probe := getUniqueMonitoredAccounts db
    Except.ok { s with
      isInitializing := false, isRunning := true,
      intervalInstalled := true, storyIntervalInstalled := true,
      postIntervalInstalled := true }

/-! ## Rate limiter and outbound-call traces -/

/-- `_rateLimitedRequest(fn)` — `monitor.js` lines 705-715, as a grant-time
computation: with `last = this._lastRequestTime` and `now = Date.now()`, when
`now - last < delay` the call sleeps `delay - (now - last)` ms first; the new
`_lastRequestTime` is the time after the sleep, at which the request is
issued.  `delay` is `this.options.requestDelay` (source value 30000). -/
def rateLimitedGrant (delay last now : Int) : Int :=
  if now - last < delay then now + (delay - (now - last)) else now

/-- The kinds of outbound calls to the external data source. -/
inductive ApiCall where
  | profileFetch (u : Username)
  | storyFetch (u : Username)
  | postsFetch (u : Username)
deriving Repr, DecidableEq

/-- One outbound call together with whether it was issued through
`_rateLimitedRequest`. -/
structure CallEvent where
  call : ApiCall
  viaRateLimiter : Bool
deriving Repr, DecidableEq

/-- Outbound calls of `checkSingleAccount(username)` — `monitor.js`
lines 198-217: the profile fetch is wrapped in `_rateLimitedRequest`
(lines 199-201); when the fetch succeeded, parsed, and the post count
increased, `_checkNewPosts` runs and, unless throttled by its own 5-minute
check (lines 221-227), issues the posts fetch through `_rateLimitedRequest`
(lines 231-233). -/
def checkSingleAccountCalls (u : Username)
    (fetchOk postCountIncreased postCheckDue : Bool) : List CallEvent :=
  { call := ApiCall.profileFetch u, viaRateLimiter := true } ::
    (if fetchOk && postCountIncreased && postCheckDue then
      [{ call := ApiCall.postsFetch u, viaRateLimiter := true }]
    else [])

/-- Outbound calls of one story-loop cycle — `checkStories` inside
`_startStoryMonitor`, `monitor.js` lines 578-591: for each username the loop
calls `this.instagramService.fetchStoryData(username)` directly (line 584),
not through `_rateLimitedRequest`. -/
def storyCycleCalls (usernames : List Username) : List CallEvent :=
  usernames.map (fun u => { call := ApiCall.storyFetch u, viaRateLimiter := false })

/-- Outbound calls of one post-loop cycle — `checkPosts` inside
`_startPostMonitor`, `monitor.js` lines 685-697: each username goes through
`_checkNewPosts`, whose only outbound call is the `_rateLimitedRequest`-wrapped
posts fetch (issued when the 5-minute throttle allows, `postCheckDue u`). -/
def postCycleCalls (usernames : List Username) (postCheckDue : Username → Bool) :
    List CallEvent :=
  usernames.flatMap (fun u =>
    if postCheckDue u then [{ call := ApiCall.postsFetch u, viaRateLimiter := true }]
    else [])

/-! ## Claim theorems -/

/-- C7: for every pair of snapshots of the same identity in which all compared
fields (three counters, verification flag, privacy flag, display name, avatar
content hash) are equal, `_detectChanges` reports `hasChanged = false`; and in
general the `hasChanged` verdict equals the logical OR of the individual
per-field signals. -/
theorem detectChanges_spec (prev curr : Snapshot) :
    ((curr.followersCount = prev.followersCount ∧
      curr.followingCount = prev.followingCount ∧
      curr.postsCount = prev.postsCount ∧
      curr.isVerified = prev.isVerified ∧
      curr.isPrivate = prev.isPrivate ∧
      curr.userFullname = prev.userFullname ∧
      curr.userProfilePicHash = prev.userProfilePicHash) →
      (detectChanges curr (some prev)).hasChanged = false) ∧
    (detectChanges curr (some prev)).hasChanged =
      (decide ((detectChanges curr (some prev)).followerDiff ≠ 0) ||
       decide ((detectChanges curr (some prev)).followingDiff ≠ 0) ||
       decide ((detectChanges curr (some prev)).postsDiff ≠ 0) ||
       (detectChanges curr (some prev)).verifiedChanged ||
       (detectChanges curr (some prev)).privateChanged ||
       (detectChanges curr (some prev)).profilePicChanged ||
       (detectChanges curr (some prev)).nameChanged) := by
  constructor
  · rintro ⟨h1, h2, h3, h4, h5, h6, h7⟩
    simp [detectChanges, h1, h2, h3, h4, h5, h6, h7]
  · simp [detectChanges]

/-- Witness for C7: two identical concrete snapshots yield `hasChanged = false`. -/
theorem detectChanges_spec_witness :
    (detectChanges
      { username := "alpha", userFullname := some "Alpha", userProfilePicHash := some "h0",
        isPrivate := some false, isVerified := some true,
        followersCount := some 100, followingCount := some 10, postsCount := some 5 }
      (some { username := "alpha", userFullname := some "Alpha",
              userProfilePicHash := some "h0", isPrivate := some false,
              isVerified := some true, followersCount := some 100,
              followingCount := some 10, postsCount := some 5 })).hasChanged
      = false :=
  (detectChanges_spec _ _).1 ⟨rfl, rfl, rfl, rfl, rfl, rfl, rfl⟩

/-- C6: for an identity freshly tracked at time `T` without the force-flag,
the first successful check is always persisted; the "new account / initial
data" notification is suppressed for a check completed at `T+30s` (inside the
90s grace window) but sent for one completed at `T+120s`; and passing
`forceInitialNotification` always sends it. -/
theorem suppression_window_spec (T : Int) (current : Snapshot) :
    processProfileData current none false (some T) (T + 30000) =
      (true, NotifyKind.none) ∧
    processProfileData current none false (some T) (T + 120000) =
      (true, NotifyKind.newAccount) ∧
    (∀ addedAt now, processProfileData current none true addedAt now =
      (true, NotifyKind.newAccount)) := by
  have h30 : T + 30000 - T = (30000 : Int) := by ring
  have h120 : T + 120000 - T = (120000 : Int) := by ring
  refine ⟨?_, ?_, ?_⟩
  · simp [processProfileData, detectChanges, shouldSuppressNotification, h30]
  · simp [processProfileData, detectChanges, shouldSuppressNotification, h120]
  · intro addedAt now
    simp [processProfileData, detectChanges, shouldSuppressNotification]

/-- C9: when the avatar image fetch or hashing fails transiently, the fetcher
yields a snapshot whose avatar hash is `null`; compared by `_detectChanges`
against a previous snapshot with a non-null hash, the avatar signal fires and
`hasChanged = true`, so the snapshot is persisted and a change notification is
sent — a transient image-fetch failure alone produces a detected change. -/
theorem transient_hash_failure_spec (prev curr : Snapshot) (h url : String)
    (md5 : List Nat → String)
    (hprev : prev.userProfilePicHash = some h)
    (hcurr : curr.userProfilePicHash = fetchProfileDataHash true (some url) none md5)
    (force : Bool) (addedAt : Option Int) (now : Int) :
    curr.userProfilePicHash = none ∧
    (detectChanges curr (some prev)).profilePicChanged = true ∧
    (detectChanges curr (some prev)).hasChanged = true ∧
    processProfileData curr (some prev) force addedAt now =
      (true, NotifyKind.changes) := by
  have hnone : curr.userProfilePicHash = none := by
    rw [hcurr]; rfl
  have hpic : (detectChanges curr (some prev)).profilePicChanged = true := by
    simp [detectChanges, hnone, hprev]
  have hch : (detectChanges curr (some prev)).hasChanged = true := by
    simp [detectChanges, hnone, hprev]
  refine ⟨hnone, hpic, hch, ?_⟩
  simp [processProfileData, hch]

/-- Witness for C9 at a concrete previous snapshot and failed image fetch. -/
theorem transient_hash_failure_spec_witness :
    (detectChanges
      { username := "alpha", userFullname := some "Alpha", userProfilePicHash := none,
        isPrivate := some false, isVerified := some true,
        followersCount := some 100, followingCount := some 10, postsCount := some 5 }
      (some { username := "alpha", userFullname := some "Alpha",
              userProfilePicHash := some "h0", isPrivate := some false,
              isVerified := some true, followersCount := some 100,
              followingCount := some 10, postsCount := some 5 })).hasChanged = true :=
  (transient_hash_failure_spec _ _ "h0" "http://pic" (fun _ => "") rfl rfl
    false none 0).2.2.1

/-- C8: removing the last subscriber of an identity (the deletion exists and
brings the identity's subscriber count to zero) deletes all of that identity's
history — zero remaining snapshot, ephemeral-media and feed-media records;
removing a non-last subscriber deletes only that subscription and leaves the
history collections untouched. -/
theorem removeAccount_cascade_spec (st : Store) (username : Username)
    (chatId : ChatId)
    (hdel : (deleteOneSub st.monitored username chatId).length <
            st.monitored.length) :
    (countSubs (deleteOneSub st.monitored username chatId) username = 0 →
      username ∉ (removeAccount st username chatId).followerHist ∧
      username ∉ (removeAccount st username chatId).storyHist ∧
      username ∉ (removeAccount st username chatId).postHist) ∧
    (0 < countSubs (deleteOneSub st.monitored username chatId) username →
      removeAccount st username chatId =
        { st with monitored := deleteOneSub st.monitored username chatId }) := by
  constructor
  · intro hzero
    simp [removeAccount, hdel, hzero]
  · intro hpos
    have hne : countSubs (deleteOneSub st.monitored username chatId) username ≠ 0 :=
      Nat.pos_iff_ne_zero.mp hpos
    simp [removeAccount, hdel, hne]

/-- Witness for C8 on a one-subscriber store: the cascade empties the history
collections. -/
theorem removeAccount_cascade_spec_witness :
    "alpha" ∉ (removeAccount
      { monitored := [⟨"alpha", "chat1"⟩],
        followerHist := ["alpha"], storyHist := ["alpha"], postHist := ["alpha"] }
      "alpha" "chat1").followerHist :=
  ((removeAccount_cascade_spec
    { monitored := [⟨"alpha", "chat1"⟩],
      followerHist := ["alpha"], storyHist := ["alpha"], postHist := ["alpha"] }
    "alpha" "chat1" (by decide)).1 (by decide)).1

/-- C10: for an empty username, a username failing the
`^[a-zA-Z0-9._]{1,30}$` pattern, or a (username, chat) pair already
subscribed, `addAccount` leaves the subscription store unchanged, performs no
external fetch, and only sends a warning/info message (the outcome is never
`added`). -/
theorem addAccount_reject_spec (st : Store) (username : Username)
    (chatId : ChatId)
    (h : username = "" ∨ isValidUsername username = false ∨
         (⟨username, chatId⟩ : Subscription) ∈ st.monitored) :
    (addAccount st username chatId).1 = st ∧
    (addAccount st username chatId).2.1 ≠ AddOutcome.added ∧
    (addAccount st username chatId).2.2 = false := by
  unfold addAccount
  rcases h with h | h | h
  · simp [h]
  · by_cases he : username = ""
    · simp [he]
    · simp [he, h]
  · by_cases he : username = ""
    · simp [he]
    · by_cases hv : isValidUsername username
      · simp [he, hv, h]
      · simp [he, hv]

/-- Witness for C10: adding the already-subscribed pair changes nothing and
fetches nothing. -/
theorem addAccount_reject_spec_witness :
    (addAccount
      { monitored := [⟨"alpha", "chat1"⟩],
        followerHist := [], storyHist := [], postHist := [] }
      "alpha" "chat1").2.2 = false :=
  (addAccount_reject_spec
    { monitored := [⟨"alpha", "chat1"⟩],
      followerHist := [], storyHist := [], postHist := [] }
    "alpha" "chat1" (Or.inr (Or.inr (by decide)))).2.2

/-- C1 counterexample: ephemeral media with reference "m1" observed in two
consecutive hourly story-check cycles (at t = 0 ms and t = 3600000 ms).  The
second cycle's should-process decision (`isNewStory`) returns `true` — the
latest record was processed more than five minutes ago and the media
reference is never consulted — so a second `StoryHistory` record for the same
(identity, media reference) pair is created and the notify path runs again,
contradicting the claimed uniqueness invariant. -/
theorem story_dedup_counterexample :
    isNewStory (processStoryResult [] "alpha" "m1" "photo" 0).1 "alpha" 3600000 = true ∧
    (storyRecordsFor
      (processStoryResult (processStoryResult [] "alpha" "m1" "photo" 0).1
        "alpha" "m1" "photo" 3600000).1 "alpha" "m1").length = 2 ∧
    (processStoryResult (processStoryResult [] "alpha" "m1" "photo" 0).1
      "alpha" "m1" "photo" 3600000).2 = true := by
  decide

/-- C1 amended: the should-process decision of `_processStoryResult` is
time-based, not keyed on (identity, media reference): with a latest record for
the identity present, a re-observation is skipped (no new record, no
notification) iff that record's `processedAt` lies within the last five
minutes; past the five-minute buffer — in particular on the next hourly cycle
— the same still-active media yields a second record for the same (identity,
media reference) pair and triggers the notify path again. -/
theorem story_dedup_time_based (store : List StoryRec) (username : Username)
    (mediaUrl mediaType : String) (now : Int) (last : StoryRec)
    (hlast : latestStory store username = some last) :
    isNewStory store username now = decide (last.processedAt < now - 300000) ∧
    (now - 300000 ≤ last.processedAt →
      processStoryResult store username mediaUrl mediaType now = (store, false)) ∧
    (last.processedAt < now - 300000 →
      processStoryResult store username mediaUrl mediaType now =
        (store ++ [{ username, mediaUrl, mediaType, processedAt := now,
                     sentTo := [] }], true)) := by
  have hnew : isNewStory store username now = decide (last.processedAt < now - 300000) := by
    simp [isNewStory, hlast]
  refine ⟨hnew, ?_, ?_⟩
  · intro hle
    have : isNewStory store username now = false := by
      rw [hnew]
      simpa using not_lt.mpr hle
    simp [processStoryResult, this]
  · intro hlt
    have : isNewStory store username now = true := by
      rw [hnew]
      simpa using hlt
    simp [processStoryResult, this]

/-- Witness for the amended C1: one record processed at t = 0, re-observation
at t = 200000 ms (within the buffer) is skipped. -/
theorem story_dedup_time_based_witness :
    processStoryResult
      [{ username := "alpha", mediaUrl := "m1", mediaType := "photo",
         processedAt := 0, sentTo := [] }] "alpha" "m1" "photo" 200000 =
      ([{ username := "alpha", mediaUrl := "m1", mediaType := "photo",
          processedAt := 0, sentTo := [] }], false) :=
  (story_dedup_time_based
    [{ username := "alpha", mediaUrl := "m1", mediaType := "photo",
       processedAt := 0, sentTo := [] }] "alpha" "m1" "photo" 200000
    { username := "alpha", mediaUrl := "m1", mediaType := "photo",
      processedAt := 0, sentTo := [] } (by decide)).2.1 (by decide)

/-- C4 counterexample: with the identity store unreachable (`db = none`),
`start()` from the stopped state does not propagate any error — the
enumeration probe swallows it and returns an empty list — and the scheduler
enters `Running` with all three interval timers installed, contradicting the
claim that the error surfaces and `isRunning` stays false. -/
theorem start_unreachable_counterexample :
    start none
      { isRunning := false, isInitializing := true, intervalInstalled := false,
        storyIntervalInstalled := false, postIntervalInstalled := false,
        activeCycles := 0 } =
    Except.ok
      { isRunning := true, isInitializing := false, intervalInstalled := true,
        storyIntervalInstalled := true, postIntervalInstalled := true,
        activeCycles := 0 } := by
  rfl

/-- C4 amended: when the identity store is unreachable at `start()`, the
connectivity probe (`_getUniqueMonitoredAccounts`) catches the failure and
returns an empty account list, so `start()` completes without error: the
scheduler enters `Running` (`isRunning = true`, `isInitializing = false`) and
the profile, story and post interval timers are all installed. -/
theorem start_unreachable_enters_running (s : SchedState)
    (h : s.isRunning = false) :
    getUniqueMonitoredAccounts none = [] ∧
    start none s = Except.ok { s with
      isInitializing := false, isRunning := true,
      intervalInstalled := true, storyIntervalInstalled := true,
      postIntervalInstalled := true } := by
  refine ⟨rfl, ?_⟩
  simp [start, h]

/-- Witness for the amended C4 at the freshly-constructed scheduler state. -/
theorem start_unreachable_enters_running_witness :
    start none
      { isRunning := false, isInitializing := true, intervalInstalled := false,
        storyIntervalInstalled := false, postIntervalInstalled := false,
        activeCycles := 0 } =
    Except.ok
      { isRunning := true, isInitializing := false, intervalInstalled := true,
        storyIntervalInstalled := true, postIntervalInstalled := true,
        activeCycles := 0 } :=
  (start_unreachable_enters_running
    { isRunning := false, isInitializing := true, intervalInstalled := false,
      storyIntervalInstalled := false, postIntervalInstalled := false,
      activeCycles := 0 } rfl).2

/-- C5 counterexample: a profile-loop interval tick arriving while one check
cycle is still in flight (`activeCycles = 1`, service running and
initialized) starts a second overlapping cycle — the callback and
`checkAllAccounts` consult only `isRunning`/`isInitializing`, never whether a
cycle is already running — contradicting the claim that an overlapping cycle
is never started. -/
theorem tick_overlap_counterexample :
    (intervalTick
      { isRunning := true, isInitializing := false, intervalInstalled := true,
        storyIntervalInstalled := true, postIntervalInstalled := true,
        activeCycles := 1 }).activeCycles = 2 := by
  rfl

/-- C5 amended: the interval tick skips a cycle only when the service is not
running or still initializing; there is no re-entrancy guard, so while
`Running` every tick starts a new cycle even when one (or more) is still in
flight. -/
theorem tick_no_reentrancy_guard (s : SchedState) :
    (s.isRunning = true ∧ s.isInitializing = false →
      (intervalTick s).activeCycles = s.activeCycles + 1) ∧
    (s.isRunning = false ∨ s.isInitializing = true →
      (intervalTick s).activeCycles = s.activeCycles) := by
  constructor
  · rintro ⟨hr, hi⟩
    simp [intervalTick, hr, hi]
  · rintro (h | h)
    · simp [intervalTick, h]
    · by_cases hr : s.isRunning
      · simp [intervalTick, hr, h]
      · simp [intervalTick, hr]

/-- Witness for the amended C5: with one cycle in flight the tick starts
another. -/
theorem tick_no_reentrancy_guard_witness :
    (intervalTick
      { isRunning := true, isInitializing := false, intervalInstalled := true,
        storyIntervalInstalled := true, postIntervalInstalled := true,
        activeCycles := 1 }).activeCycles = 1 + 1 :=
  (tick_no_reentrancy_guard
    { isRunning := true, isInitializing := false, intervalInstalled := true,
      storyIntervalInstalled := true, postIntervalInstalled := true,
      activeCycles := 1 }).1 ⟨rfl, rfl⟩

/-- C3 counterexample: the ephemeral-media (story) loop issues its outbound
call directly — `checkStories` calls `fetchStoryData` without
`_rateLimitedRequest` — so a concrete story cycle over one account contains
an outbound call that does not go through the shared rate limiter,
contradicting the claim that every call from all three loops does. -/
theorem story_loop_bypasses_limiter :
    ({ call := ApiCall.storyFetch "alpha", viaRateLimiter := false } : CallEvent)
      ∈ storyCycleCalls ["alpha"] ∧
    (storyCycleCalls ["alpha"]).all (fun e => e.viaRateLimiter) = false := by
  decide

/-- C3 amended: the profile loop's calls (`checkSingleAccount`, including the
posts fetch it may trigger) and the feed-media loop's calls (`_checkNewPosts`)
all go through the single shared rate limiter, and any two consecutive granted
acquisitions are at least `requestDelay` apart; the ephemeral-media loop,
however, calls the data source directly, bypassing the limiter. -/
theorem rate_limiter_spec (u : Username) (fetchOk postCountIncreased postCheckDue : Bool)
    (usernames : List Username) (due : Username → Bool) (delay last now : Int) :
    (checkSingleAccountCalls u fetchOk postCountIncreased postCheckDue).all
      (fun e => e.viaRateLimiter) = true ∧
    (postCycleCalls usernames due).all (fun e => e.viaRateLimiter) = true ∧
    (storyCycleCalls usernames).all (fun e => !e.viaRateLimiter) = true ∧
    delay ≤ rateLimitedGrant delay last now - last := by
  refine ⟨?_, ?_, ?_, ?_⟩
  · cases fetchOk <;> cases postCountIncreased <;> cases postCheckDue <;>
      simp [checkSingleAccountCalls]
  · simp only [postCycleCalls, List.all_eq_true]
    intro e he
    rw [List.mem_flatMap] at he
    obtain ⟨v, _, hv⟩ := he
    by_cases hd : due v
    · simp [hd] at hv
      simp [hv]
    · simp [hd] at hv
  · simp only [storyCycleCalls, List.all_eq_true]
    intro e he
    rw [List.mem_map] at he
    obtain ⟨v, _, hv⟩ := he
    simp [← hv]
  · unfold rateLimitedGrant
    split <;> omega

/-! ### Helper lemmas about the notify loop -/

/-- Unfolding equation for `notifyRun` on a non-empty target list, with
`addToSet` resolved into its two cases. -/
theorem notifyRun_cons (snapshot : List ChatId) (ok : ChatId → Bool)
    (db : List ChatId) (t : ChatId) (ts : List ChatId) :
    notifyRun snapshot ok db (t :: ts) =
      if t ∈ snapshot then notifyRun snapshot ok db ts
      else if ok t = true then
        if t ∈ db then notifyRun snapshot ok db ts
        else ((notifyRun snapshot ok (db ++ [t]) ts).1,
              t :: (notifyRun snapshot ok (db ++ [t]) ts).2)
      else notifyRun snapshot ok db ts := by
  simp only [notifyRun, addToSet]
  by_cases hs : t ∈ snapshot
  · simp [hs]
  · by_cases hk : ok t
    · by_cases hd : t ∈ db
      · simp [hs, hk, hd]
      · simp [hs, hk, hd]
    · simp [hs, hk]

/-- The persisted `sentTo` only grows during a notify run. -/
theorem notifyRun_db_mono (snapshot : List ChatId) (ok : ChatId → Bool) :
    ∀ (ts db : List ChatId) (t : ChatId),
      t ∈ db → t ∈ (notifyRun snapshot ok db ts).1 := by
  intro ts
  induction ts with
  | nil => intro db t ht; simpa [notifyRun] using ht
  | cons x xs ih =>
      intro db t ht
      rw [notifyRun_cons]
      by_cases hs : x ∈ snapshot
      · simpa [hs] using ih db t ht
      · by_cases hk : ok x
        · by_cases hd : x ∈ db
          · simpa [hs, hk, hd] using ih db t ht
          · have hm : t ∈ db ++ [x] := List.mem_append_left _ ht
            simpa [hs, hk, hd] using ih (db ++ [x]) t hm
        · simpa [hs, hk] using ih db t ht

/-- A target in the loaded `sentTo` snapshot is skipped: it is never newly
added by the run. -/
theorem notifyRun_snapshot_not_added (snapshot : List ChatId) (ok : ChatId → Bool) :
    ∀ (ts db : List ChatId) (t : ChatId),
      t ∈ snapshot → t ∉ (notifyRun snapshot ok db ts).2 := by
  intro ts
  induction ts with
  | nil => intro db t _; simp [notifyRun]
  | cons x xs ih =>
      intro db t ht
      rw [notifyRun_cons]
      by_cases hs : x ∈ snapshot
      · simpa [hs] using ih db t ht
      · by_cases hk : ok x
        · by_cases hd : x ∈ db
          · simpa [hs, hk, hd] using ih db t ht
          · have hne : t ≠ x := fun h => hs (h ▸ ht)
            simp only [hs, hk, hd, if_false, if_true, ite_false, ite_true,
              List.mem_cons, not_or]
            exact ⟨hne, ih (db ++ [x]) t ht⟩
        · simpa [hs, hk] using ih db t ht

/-- A target already in the persisted `sentTo` is never newly added
(`$addToSet` reports no insertion for present elements). -/
theorem notifyRun_mem_db_not_added (snapshot : List ChatId) (ok : ChatId → Bool) :
    ∀ (ts db : List ChatId) (t : ChatId),
      t ∈ db → t ∉ (notifyRun snapshot ok db ts).2 := by
  intro ts
  induction ts with
  | nil => intro db t _; simp [notifyRun]
  | cons x xs ih =>
      intro db t ht
      rw [notifyRun_cons]
      by_cases hs : x ∈ snapshot
      · simpa [hs] using ih db t ht
      · by_cases hk : ok x
        · by_cases hd : x ∈ db
          · simpa [hs, hk, hd] using ih db t ht
          · have hne : t ≠ x := fun h => hd (h ▸ ht)
            have hm : t ∈ db ++ [x] := List.mem_append_left _ ht
            simp only [hs, hk, hd, if_false, if_true, ite_false, ite_true,
              List.mem_cons, not_or]
            exact ⟨hne, ih (db ++ [x]) t hm⟩
        · simpa [hs, hk] using ih db t ht

/-- No run newly adds the same target twice. -/
theorem notifyRun_count_added_le_one (snapshot : List ChatId) (ok : ChatId → Bool) :
    ∀ (ts db : List ChatId) (t : ChatId),
      ((notifyRun snapshot ok db ts).2).count t ≤ 1 := by
  intro ts
  induction ts with
  | nil => intro db t; simp [notifyRun]
  | cons x xs ih =>
      intro db t
      rw [notifyRun_cons]
      by_cases hs : x ∈ snapshot
      · simpa [hs] using ih db t
      · by_cases hk : ok x
        · by_cases hd : x ∈ db
          · simpa [hs, hk, hd] using ih db t
          · simp only [hs, hk, hd, if_false, if_true, ite_false, ite_true]
            by_cases hxt : t = x
            · subst hxt
              have hm : t ∈ db ++ [t] := List.mem_append_right _ (List.mem_singleton.mpr rfl)
              have hz : ((notifyRun snapshot ok (db ++ [t]) xs).2).count t = 0 :=
                List.count_eq_zero.mpr (notifyRun_mem_db_not_added snapshot ok xs (db ++ [t]) t hm)
              simp [List.count_cons, hz]
            · have := ih (db ++ [x]) t
              simpa [List.count_cons, hxt] using this
        · simpa [hs, hk] using ih db t

/-- A target in the current subscriber list that is neither in the snapshot
nor in the persisted set, and whose delivery is confirmed, is newly added by
the run. -/
theorem notifyRun_new_target_added (snapshot : List ChatId) (ok : ChatId → Bool) :
    ∀ (ts db : List ChatId) (t : ChatId),
      t ∈ ts → t ∉ snapshot → t ∉ db → ok t = true →
      t ∈ (notifyRun snapshot ok db ts).2 := by
  intro ts
  induction ts with
  | nil => intro db t ht; cases ht
  | cons x xs ih =>
      intro db t ht hsnap hdb hok
      rw [notifyRun_cons]
      by_cases hxt : t = x
      · subst hxt
        simp [hsnap, hok, hdb]
      · have hts : t ∈ xs := by
          rcases List.mem_cons.mp ht with h | h
          · exact absurd h hxt
          · exact h
        by_cases hs : x ∈ snapshot
        · simpa [hs] using ih db t hts hsnap hdb hok
        · by_cases hk : ok x
          · by_cases hd : x ∈ db
            · simpa [hs, hk, hd] using ih db t hts hsnap hdb hok
            · have hdb' : t ∉ db ++ [x] := by
                simp [hdb, hxt]
              simp only [hs, hk, hd, if_false, if_true, ite_false, ite_true,
                List.mem_cons]
              exact Or.inr (ih (db ++ [x]) t hts hsnap hdb' hok)
          · simpa [hs, hk] using ih db t hts hsnap hdb hok

/-- Everything a run newly adds ends up in the persisted `sentTo`. -/
theorem notifyRun_added_mem_db (snapshot : List ChatId) (ok : ChatId → Bool) :
    ∀ (ts db : List ChatId) (t : ChatId),
      t ∈ (notifyRun snapshot ok db ts).2 → t ∈ (notifyRun snapshot ok db ts).1 := by
  intro ts
  induction ts with
  | nil => intro db t ht; simp [notifyRun] at ht
  | cons x xs ih =>
      intro db t ht
      rw [notifyRun_cons] at *
      by_cases hs : x ∈ snapshot
      · simp only [hs, if_true, ite_true] at ht ⊢
        exact ih db t ht
      · by_cases hk : ok x
        · by_cases hd : x ∈ db
          · simp only [hs, hk, hd, if_false, if_true, ite_false, ite_true] at ht ⊢
            exact ih db t ht
          · simp only [hs, hk, hd, if_false, if_true, ite_false, ite_true,
              List.mem_cons] at ht ⊢
            rcases ht with h | h
            · subst h
              exact notifyRun_db_mono snapshot ok xs (db ++ [t]) t
                (List.mem_append_right _ (List.mem_singleton.mpr rfl))
            · exact ih (db ++ [x]) t h
        · simp only [hs, hk, if_false, ite_false, Bool.false_eq_true] at ht ⊢
          exact ih db t ht

/-- C2: for a fixed media event record and any subscriber target list,
running the notify path twice over the same record newly adds each target to
the notified set exactly once across both runs combined: a target not yet
notified whose delivery is confirmed is added exactly once and ends up in the
persisted `sentTo`; no target is ever newly added more than once; and a
target already present in the record's notified set before the first run is
skipped — never newly added — by both runs. -/
theorem notify_at_most_once_per_target (db0 targets : List ChatId)
    (ok : ChatId → Bool) (t : ChatId)
    (ht : t ∈ targets) (hdb : t ∉ db0) (hok : ok t = true) :
    ((notifyTwice db0 targets ok).2.1 ++ (notifyTwice db0 targets ok).2.2).count t = 1 ∧
    t ∈ (notifyTwice db0 targets ok).1 ∧
    (∀ u : ChatId,
      ((notifyTwice db0 targets ok).2.1 ++ (notifyTwice db0 targets ok).2.2).count u ≤ 1) ∧
    (∀ u : ChatId, u ∈ db0 →
      u ∉ (notifyTwice db0 targets ok).2.1 ∧ u ∉ (notifyTwice db0 targets ok).2.2) := by
  have hTwice : notifyTwice db0 targets ok =
      ((notifyRun (notifyRun db0 ok db0 targets).1 ok
          (notifyRun db0 ok db0 targets).1 targets).1,
       (notifyRun db0 ok db0 targets).2,
       (notifyRun (notifyRun db0 ok db0 targets).1 ok
          (notifyRun db0 ok db0 targets).1 targets).2) := rfl
  rw [hTwice]
  dsimp only
  have hta1 : t ∈ (notifyRun db0 ok db0 targets).2 :=
    notifyRun_new_target_added db0 ok targets db0 t ht hdb hdb hok
  have htdb1 : t ∈ (notifyRun db0 ok db0 targets).1 :=
    notifyRun_added_mem_db db0 ok targets db0 t hta1
  have hta2 : t ∉ (notifyRun (notifyRun db0 ok db0 targets).1 ok
      (notifyRun db0 ok db0 targets).1 targets).2 :=
    notifyRun_snapshot_not_added _ ok targets _ t htdb1
  have hc1 : ((notifyRun db0 ok db0 targets).2).count t = 1 := by
    have hle := notifyRun_count_added_le_one db0 ok targets db0 t
    have hpos : 0 < ((notifyRun db0 ok db0 targets).2).count t :=
      List.count_pos_iff.mpr hta1
    omega
  have hc2 : ((notifyRun (notifyRun db0 ok db0 targets).1 ok
      (notifyRun db0 ok db0 targets).1 targets).2).count t = 0 :=
    List.count_eq_zero.mpr hta2
  refine ⟨?_, ?_, ?_, ?_⟩
  · rw [List.count_append, hc1, hc2]
  · exact notifyRun_db_mono _ ok targets _ t htdb1
  · intro u
    rw [List.count_append]
    by_cases hu : u ∈ (notifyRun db0 ok db0 targets).2
    · have hudb1 : u ∈ (notifyRun db0 ok db0 targets).1 :=
        notifyRun_added_mem_db db0 ok targets db0 u hu
      have hua2 : u ∉ (notifyRun (notifyRun db0 ok db0 targets).1 ok
          (notifyRun db0 ok db0 targets).1 targets).2 :=
        notifyRun_snapshot_not_added _ ok targets _ u hudb1
      have h1 := notifyRun_count_added_le_one db0 ok targets db0 u
      have h2 : ((notifyRun (notifyRun db0 ok db0 targets).1 ok
          (notifyRun db0 ok db0 targets).1 targets).2).count u = 0 :=
        List.count_eq_zero.mpr hua2
      omega
    · have h1 : ((notifyRun db0 ok db0 targets).2).count u = 0 :=
        List.count_eq_zero.mpr hu
      have h2 := notifyRun_count_added_le_one (notifyRun db0 ok db0 targets).1 ok
        targets (notifyRun db0 ok db0 targets).1 u
      omega
  · intro u hu
    refine ⟨notifyRun_snapshot_not_added db0 ok targets db0 u hu, ?_⟩
    have hudb1 : u ∈ (notifyRun db0 ok db0 targets).1 :=
      notifyRun_db_mono db0 ok targets db0 u hu
    exact notifyRun_snapshot_not_added _ ok targets _ u hudb1

/-- Witness for C2 with two subscriber chats, an empty initial notified set,
and delivery succeeding everywhere. -/
theorem notify_at_most_once_per_target_witness :
    ((notifyTwice [] ["chat1", "chat2"] (fun _ => true)).2.1 ++
      (notifyTwice [] ["chat1", "chat2"] (fun _ => true)).2.2).count "chat1" = 1 :=
  (notify_at_most_once_per_target [] ["chat1", "chat2"] (fun _ => true) "chat1"
    (by decide) (by decide) rfl).1

end Instaf
